import Mathlib

/-!
Shallow embedding of the message-overlay presentation and gesture engine of
`src/components/MessageOverlay/MessageOverlay.tsx`, and of the channel files
screen, together with proofs about the claims of the specification.

Numbers that the source manipulates (translations, velocities, opacities,
durations) are embedded as exact rationals.  The two reanimated execution
contexts are modelled by letting every state transition additionally emit the
list of `runOnJS` actions it hands over to the application (JS) context.
-/

namespace StreamChat

/-- Overlay kinds from the overlay context: exactly one is active at a time. -/
inductive OverlayKind
  | none
  | message
  | gallery
  | alert
deriving DecidableEq

/-- Side effects that the animation context marshals into the application
context: the message-overlay `reset()` callback and `setOverlay(kind)`. -/
inductive JSAction
  | reset
  | setOverlay (kind : OverlayKind)
deriving DecidableEq

/-- An action emitted by the animation/gesture context.  `runOnJS` is the
one-way fire-and-forget handoff into the application context. -/
inductive Action
  | runOnJS (action : JSAction)
deriving DecidableEq

/-- The two animation callbacks occurring in `MessageOverlay.tsx`:
`fadeScreenHide showFlag` is the `withTiming` callback inside `fadeScreen`
(the source captures the `show` argument), and `dismissOverlayOpacity` is the
`withTiming` callback attached to `overlayOpacity` in `onPan.onFinish`. -/
inductive CB
  | fadeScreenHide (showFlag : Bool)
  | dismissOverlayOpacity
deriving DecidableEq

/-- Running a callback.  Reanimated invokes a callback exactly once per
animation, passing whether the animation finished; the current overlay kind
is the application-context state at that moment.  Both source callbacks
ignore the finished flag and never read the overlay kind: the hide callback
is guarded only by the captured show flag before calling `runOnJS(reset)`,
and the dismissal callback unconditionally runs `runOnJS(setOverlay)` with
the kind none. -/
def CB.run (cb : CB) (finished : Bool) (overlay : OverlayKind) : List Action :=
  match cb, finished, overlay with
  | CB.fadeScreenHide showFlag, _, _ =>
      if !showFlag then [Action.runOnJS JSAction.reset] else []
  | CB.dismissOverlayOpacity, _, _ =>
      [Action.runOnJS (JSAction.setOverlay OverlayKind.none)]

/-- The configuration record of `withSpring`. -/
structure SpringConfig where
  damping : ℚ
  mass : ℚ
  restDisplacementThreshold : ℚ
  restSpeedThreshold : ℚ
  stiffness : ℚ
  velocity : ℚ
deriving DecidableEq

/-- Easing curves used by `withTiming` in this file: the platform default
(when no config is given) and `Easing.out(Easing.ease)`. -/
inductive EasingSpec
  | standard
  | easeOutEase
deriving DecidableEq

/-- The configuration record of `withTiming`. -/
structure TimingConfig where
  duration : ℚ
  easing : EasingSpec
deriving DecidableEq

/-- `withTiming(target)` with no explicit config: 300 ms, default easing. -/
def defaultTimingConfig : TimingConfig :=
  { duration := 300, easing := EasingSpec.standard }

/-- The animation descriptor currently attached to a shared value:
nothing in flight, or one of `withSpring` / `withTiming` / `withDecay`
with an optional completion callback. -/
inductive AnimDesc
  | still
  | spring (target : ℚ) (config : SpringConfig) (cb : Option CB)
  | timing (target : ℚ) (config : TimingConfig) (cb : Option CB)
  | decay (velocity : ℚ) (cb : Option CB)
deriving DecidableEq

/-- The callback carried by an animation descriptor, if any. -/
def AnimDesc.callbackOf : AnimDesc → Option CB
  | AnimDesc.still => Option.none
  | AnimDesc.spring _ _ cb => cb
  | AnimDesc.timing _ _ cb => cb
  | AnimDesc.decay _ cb => cb

/-- Actions emitted when an in-flight animation is cancelled (reanimated
invokes its callback with `finished = false`). -/
def AnimDesc.cancelActions (d : AnimDesc) (overlay : OverlayKind) : List Action :=
  match d.callbackOf with
  | some cb => cb.run false overlay
  | Option.none => []

/-- Actions emitted when an animation runs to completion (callback invoked
with `finished = true`). -/
def AnimDesc.completeActions (d : AnimDesc) (overlay : OverlayKind) : List Action :=
  match d.callbackOf with
  | some cb => cb.run true overlay
  | Option.none => []

/-- A reanimated shared value: current numeric value plus the animation
descriptor currently owning it. -/
structure SharedValue where
  value : ℚ
  anim : AnimDesc
deriving DecidableEq

/-- `sv.value = x` with a plain number: cancels any in-flight animation and
installs the value. -/
def SharedValue.setValue (sv : SharedValue) (x : ℚ) (overlay : OverlayKind) :
    SharedValue × List Action :=
  ({ value := x, anim := AnimDesc.still }, sv.anim.cancelActions overlay)

/-- `sv.value = withX(...)`: starts a new animation from the current value,
cancelling whichever animation previously owned the cell. -/
def SharedValue.startAnim (sv : SharedValue) (d : AnimDesc) (overlay : OverlayKind) :
    SharedValue × List Action :=
  ({ sv with anim := d }, sv.anim.cancelActions overlay)

/-- `cancelAnimation(sv)`: stops the in-flight animation, keeping the value. -/
def SharedValue.cancelAnim (sv : SharedValue) (overlay : OverlayKind) :
    SharedValue × List Action :=
  ({ sv with anim := AnimDesc.still }, sv.anim.cancelActions overlay)

/-- `const halfScreenHeight = vh(50)`, given `screenHeight = vh(100)`. -/
def halfScreenHeight (screenHeight : ℚ) : ℚ := screenHeight / 2

/-- The animated shared values owned by `MessageOverlayWithContext`:
`offsetY`, `translateY`, `scale`, `showScreen`, `overlayOpacity` (the last
one being the shared value received through props). -/
structure MessageOverlayAnimState where
  offsetY : SharedValue
  translateY : SharedValue
  scale : SharedValue
  showScreen : SharedValue
  overlayOpacity : SharedValue
deriving DecidableEq

/-- The `withSpring` configuration used by `fadeScreen` for showing. -/
def springShowConfig : SpringConfig :=
  { damping := 600, mass := 1/2, restDisplacementThreshold := 1/100,
    restSpeedThreshold := 1/100, stiffness := 200, velocity := 32 }

/-- `fadeScreen(show)`: on show, resets `offsetY`, `translateY`, `scale` and
springs `showScreen` to 1; on hide, runs `showScreen` to 0 with a 150 ms
ease-out timing whose callback invokes `runOnJS(reset)()` when `!show`. -/
def fadeScreen (overlay : OverlayKind) (showFlag : Bool)
    (s : MessageOverlayAnimState) : MessageOverlayAnimState × List Action :=
  if showFlag then
    let r1 := s.offsetY.setValue 0 overlay
    let r2 := s.translateY.setValue 0 overlay
    let r3 := s.scale.setValue 1 overlay
    let r4 := s.showScreen.startAnim
      (AnimDesc.spring 1 springShowConfig Option.none) overlay
    ({ s with offsetY := r1.1, translateY := r2.1, scale := r3.1,
              showScreen := r4.1 },
     r1.2 ++ r2.2 ++ r3.2 ++ r4.2)
  else
    let r4 := s.showScreen.startAnim
      (AnimDesc.timing 0 { duration := 150, easing := EasingSpec.easeOutEase }
        (some (CB.fadeScreenHide showFlag))) overlay
    ({ s with showScreen := r4.1 }, r4.2)

/-- reanimated `interpolate` with `Extrapolate.CLAMP` over one segment:
the input is clamped to `[x0, x1]` and mapped linearly onto `[y0, y1]`. -/
def interpolateClamp (x x0 x1 y0 y1 : ℚ) : ℚ :=
  if x ≤ x0 then y0
  else if x1 ≤ x then y1
  else y0 + (x - x0) * ((y1 - y0) / (x1 - x0))

/-- `onPan.onStart`: cancel any animation of `translateY` and capture the
current position as the new base offset. -/
def onPanOnStart (overlay : OverlayKind) (s : MessageOverlayAnimState) :
    MessageOverlayAnimState × List Action :=
  let r1 := s.translateY.cancelAnim overlay
  let r2 := s.offsetY.setValue r1.1.value overlay
  ({ s with translateY := r1.1, offsetY := r2.1 }, r1.2 ++ r2.2)

/-- `onPan.onActive`: `translateY = offsetY + translationY`, with overlay
opacity and scale derived from it by clamped interpolation over
`[0, halfScreenHeight]` onto `[1, 0.75]` and `[1, 0.85]`. -/
def onPanOnActive (screenHeight : ℚ) (overlay : OverlayKind) (translationY : ℚ)
    (s : MessageOverlayAnimState) : MessageOverlayAnimState × List Action :=
  let r1 := s.translateY.setValue (s.offsetY.value + translationY) overlay
  let r2 := s.overlayOpacity.setValue
    (interpolateClamp r1.1.value 0 (halfScreenHeight screenHeight) 1 (3/4)) overlay
  let r3 := s.scale.setValue
    (interpolateClamp r1.1.value 0 (halfScreenHeight screenHeight) 1 (17/20)) overlay
  ({ s with translateY := r1.1, overlayOpacity := r2.1, scale := r3.1 },
   r1.2 ++ r2.2 ++ r3.2)

/-- `onPan.onFinish`: with `finalYPosition = translationY + velocityY * 0.1`,
commit to dismiss when `finalYPosition > halfScreenHeight` and the current
`translateY` is positive (opacity to 0 over 200 ms ease-out with the
setOverlay-none completion callback; position by `withDecay` when
`velocityY > 1000`, else `withTiming(screenHeight, 200 ms ease-out)`);
otherwise snap back with plain default `withTiming` to `0`, `1`, `1`. -/
def onPanOnFinish (screenHeight : ℚ) (overlay : OverlayKind)
    (translationY velocityY : ℚ) (s : MessageOverlayAnimState) :
    MessageOverlayAnimState × List Action :=
  let finalYPosition := translationY + velocityY * (1/10)
  if finalYPosition > halfScreenHeight screenHeight ∧ s.translateY.value > 0 then
    let r1 := s.translateY.cancelAnim overlay
    let r2 := s.overlayOpacity.startAnim
      (AnimDesc.timing 0 { duration := 200, easing := EasingSpec.easeOutEase }
        (some CB.dismissOverlayOpacity)) overlay
    let r3 := r1.1.startAnim
      (if velocityY > 1000 then AnimDesc.decay velocityY Option.none
       else AnimDesc.timing screenHeight
         { duration := 200, easing := EasingSpec.easeOutEase } Option.none) overlay
    ({ s with translateY := r3.1, overlayOpacity := r2.1 },
     r1.2 ++ r2.2 ++ r3.2)
  else
    let r1 := s.translateY.startAnim
      (AnimDesc.timing 0 defaultTimingConfig Option.none) overlay
    let r2 := s.scale.startAnim
      (AnimDesc.timing 1 defaultTimingConfig Option.none) overlay
    let r3 := s.overlayOpacity.startAnim
      (AnimDesc.timing 1 defaultTimingConfig Option.none) overlay
    ({ s with translateY := r1.1, scale := r2.1, overlayOpacity := r3.1 },
     r1.2 ++ r2.2 ++ r3.2)

/-- The rest state of the animated cells: overlay fully shown, no drag. -/
def restState : MessageOverlayAnimState :=
  { offsetY := { value := 0, anim := AnimDesc.still },
    translateY := { value := 0, anim := AnimDesc.still },
    scale := { value := 1, anim := AnimDesc.still },
    showScreen := { value := 1, anim := AnimDesc.still },
    overlayOpacity := { value := 1, anim := AnimDesc.still } }

/-- The hidden state of the animated cells: `showScreen` at 0, nothing in
flight. -/
def hiddenState : MessageOverlayAnimState :=
  { offsetY := { value := 0, anim := AnimDesc.still },
    translateY := { value := 0, anim := AnimDesc.still },
    scale := { value := 1, anim := AnimDesc.still },
    showScreen := { value := 0, anim := AnimDesc.still },
    overlayOpacity := { value := 1, anim := AnimDesc.still } }

/-- C5: whenever a show transition begins, `fadeScreen` first resets the
animated state (`translateY` and its base `offsetY` to 0, `scale` to 1) and
drives `showScreen` toward 1 with a spring of damping 600, mass 0.5 and rest
displacement/speed thresholds 0.01. -/
theorem c5_show_resets_state_and_springs (overlay : OverlayKind)
    (s : MessageOverlayAnimState) :
    (fadeScreen overlay true s).1.offsetY.value = 0 ∧
    (fadeScreen overlay true s).1.translateY.value = 0 ∧
    (fadeScreen overlay true s).1.scale.value = 1 ∧
    (fadeScreen overlay true s).1.showScreen.anim
      = AnimDesc.spring 1 springShowConfig Option.none ∧
    springShowConfig.damping = 600 ∧
    springShowConfig.mass = 1/2 ∧
    springShowConfig.restDisplacementThreshold = 1/100 ∧
    springShowConfig.restSpeedThreshold = 1/100 :=
  ⟨rfl, rfl, rfl, rfl, rfl, rfl, rfl, rfl⟩

/-- C1 counterexample: with screen height 800, a drag to `translateY = 100`
(at most `halfScreenHeight = 400`) released with downward velocity 10000
does not snap back: the projected position `100 + 10000 * 0.1 = 1100`
exceeds `halfScreenHeight`, so the release commits to dismiss — `translateY`
is given a decay animation and the overlay opacity animation carries the
setOverlay-none completion callback. -/
theorem c1_counterexample :
    (onPanOnActive 800 OverlayKind.message 100 restState).1.translateY.value
      ≤ halfScreenHeight 800 ∧
    (onPanOnFinish 800 OverlayKind.message 100 10000
        (onPanOnActive 800 OverlayKind.message 100 restState).1).1.translateY.anim
      = AnimDesc.decay 10000 Option.none ∧
    (onPanOnFinish 800 OverlayKind.message 100 10000
        (onPanOnActive 800 OverlayKind.message 100 restState).1).1.overlayOpacity.anim
      = AnimDesc.timing 0 { duration := 200, easing := EasingSpec.easeOutEase }
          (some CB.dismissOverlayOpacity) := by
  refine ⟨?_, ?_, ?_⟩ <;>
    norm_num [onPanOnActive, onPanOnFinish, SharedValue.setValue,
      SharedValue.startAnim, SharedValue.cancelAnim, restState, halfScreenHeight,
      AnimDesc.cancelActions, AnimDesc.callbackOf, interpolateClamp]

/-- C1 (amended): for every pan release in which the projected position
`translationY + velocityY * 0.1` is at most `halfScreenHeight`, or the
current `translateY` is not positive, the release snaps back: `translateY`,
`scale`, and overlay opacity are each animated back to 0, 1, 1 with default
timing animations, none of which carries a completion callback, so no
dismissal is started. -/
theorem c1_snap_back (screenHeight : ℚ) (overlay : OverlayKind)
    (translationY velocityY : ℚ) (s : MessageOverlayAnimState)
    (h : ¬(translationY + velocityY * (1/10) > halfScreenHeight screenHeight ∧
           s.translateY.value > 0)) :
    (onPanOnFinish screenHeight overlay translationY velocityY s).1.translateY.anim
      = AnimDesc.timing 0 defaultTimingConfig Option.none ∧
    (onPanOnFinish screenHeight overlay translationY velocityY s).1.scale.anim
      = AnimDesc.timing 1 defaultTimingConfig Option.none ∧
    (onPanOnFinish screenHeight overlay translationY velocityY s).1.overlayOpacity.anim
      = AnimDesc.timing 1 defaultTimingConfig Option.none := by
  unfold onPanOnFinish
  rw [if_neg h]
  exact ⟨rfl, rfl, rfl⟩

/-- C1 witness: the snap-back theorem at screen height 800, a release with
`translationY = 50` and `velocityY = 300` from the rest state. -/
theorem c1_snap_back_witness :
    (onPanOnFinish 800 OverlayKind.message 50 300 restState).1.translateY.anim
      = AnimDesc.timing 0 defaultTimingConfig Option.none ∧
    (onPanOnFinish 800 OverlayKind.message 50 300 restState).1.scale.anim
      = AnimDesc.timing 1 defaultTimingConfig Option.none ∧
    (onPanOnFinish 800 OverlayKind.message 50 300 restState).1.overlayOpacity.anim
      = AnimDesc.timing 1 defaultTimingConfig Option.none :=
  c1_snap_back 800 OverlayKind.message 50 300 restState
    (by norm_num [restState, halfScreenHeight])

/-- C2 counterexample: with screen height 800, a drag to `translateY = 700`
released with upward velocity `velocityY = -2000` commits to dismiss
(projected position `700 - 200 = 500 > 400` and `translateY > 0`) and has
`|velocityY| = 2000 > 1000`, yet the position animation is the fixed
200 ms timing to full screen height, not a decay: the source tests the
signed `velocityY > 1000`, not the absolute value. -/
theorem c2_counterexample :
    ((700 : ℚ) + (-2000) * (1/10) > halfScreenHeight 800 ∧
      (onPanOnActive 800 OverlayKind.message 700 restState).1.translateY.value > 0) ∧
    |(-2000 : ℚ)| > 1000 ∧
    (onPanOnFinish 800 OverlayKind.message 700 (-2000)
        (onPanOnActive 800 OverlayKind.message 700 restState).1).1.translateY.anim
      = AnimDesc.timing 800 { duration := 200, easing := EasingSpec.easeOutEase }
          Option.none := by
  refine ⟨⟨?_, ?_⟩, ?_, ?_⟩ <;>
    norm_num [onPanOnActive, onPanOnFinish, SharedValue.setValue,
      SharedValue.startAnim, SharedValue.cancelAnim, restState, halfScreenHeight,
      AnimDesc.cancelActions, AnimDesc.callbackOf, interpolateClamp]

/-- C2 (amended): for every pan release that commits to dismiss
(`translationY + velocityY * 0.1 > halfScreenHeight` and current
`translateY > 0`), the position animation is the friction-based decay
exactly when the signed `velocityY` exceeds 1000 (an upward flick with
`velocityY ≤ 1000`, however large in magnitude, gets the timing animation),
and otherwise is a 200 ms ease-out timing of `translateY` to full screen
height; in both cases opacity is animated to 0 over 200 ms ease-out. -/
theorem c2_dismiss_animations (screenHeight : ℚ) (overlay : OverlayKind)
    (translationY velocityY : ℚ) (s : MessageOverlayAnimState)
    (h : translationY + velocityY * (1/10) > halfScreenHeight screenHeight ∧
         s.translateY.value > 0) :
    (onPanOnFinish screenHeight overlay translationY velocityY s).1.overlayOpacity.anim
      = AnimDesc.timing 0 { duration := 200, easing := EasingSpec.easeOutEase }
          (some CB.dismissOverlayOpacity) ∧
    ((onPanOnFinish screenHeight overlay translationY velocityY s).1.translateY.anim
        = AnimDesc.decay velocityY Option.none ↔ velocityY > 1000) ∧
    (¬velocityY > 1000 →
      (onPanOnFinish screenHeight overlay translationY velocityY s).1.translateY.anim
        = AnimDesc.timing screenHeight
            { duration := 200, easing := EasingSpec.easeOutEase } Option.none) := by
  unfold onPanOnFinish
  rw [if_pos h]
  refine ⟨rfl, ?_, ?_⟩
  · by_cases hv : velocityY > 1000
    · simp [SharedValue.startAnim, SharedValue.cancelAnim, hv]
    · simp [SharedValue.startAnim, SharedValue.cancelAnim, hv]
  · intro hv
    simp [SharedValue.startAnim, SharedValue.cancelAnim, hv]

/-- C2 witness: the dismissal theorem at screen height 800, after a drag to
`translateY = 500` released with `velocityY = 0`. -/
theorem c2_dismiss_animations_witness :
    (onPanOnFinish 800 OverlayKind.message 500 0
        (onPanOnActive 800 OverlayKind.message 500 restState).1).1.overlayOpacity.anim
      = AnimDesc.timing 0 { duration := 200, easing := EasingSpec.easeOutEase }
          (some CB.dismissOverlayOpacity) ∧
    ((onPanOnFinish 800 OverlayKind.message 500 0
        (onPanOnActive 800 OverlayKind.message 500 restState).1).1.translateY.anim
        = AnimDesc.decay 0 Option.none ↔ (0 : ℚ) > 1000) ∧
    (¬(0 : ℚ) > 1000 →
      (onPanOnFinish 800 OverlayKind.message 500 0
        (onPanOnActive 800 OverlayKind.message 500 restState).1).1.translateY.anim
        = AnimDesc.timing 800
            { duration := 200, easing := EasingSpec.easeOutEase } Option.none) :=
  c2_dismiss_animations 800 OverlayKind.message 500 0
    (onPanOnActive 800 OverlayKind.message 500 restState).1
    (by norm_num [onPanOnActive, SharedValue.setValue, restState, halfScreenHeight])

/-- C3: a pan release that commits to dismiss (after a pan update, with the
projected position beyond `halfScreenHeight` and `translateY` positive)
emits no synchronous `runOnJS` action at release time; the setOverlay-none
action
exists only as the completion callback of the 200 ms opacity animation, and
the position animation carries no callback at all.  The overlay kind is
therefore set to `none` only after the dismissal animation completes. -/
theorem c3_overlay_none_only_after_completion (screenHeight : ℚ)
    (overlay : OverlayKind) (activeTranslationY translationY velocityY : ℚ)
    (s0 : MessageOverlayAnimState)
    (h : translationY + velocityY * (1/10) > halfScreenHeight screenHeight ∧
         s0.offsetY.value + activeTranslationY > 0) :
    (onPanOnFinish screenHeight overlay translationY velocityY
        (onPanOnActive screenHeight overlay activeTranslationY s0).1).2 = [] ∧
    (onPanOnFinish screenHeight overlay translationY velocityY
        (onPanOnActive screenHeight overlay activeTranslationY s0).1).1.overlayOpacity.anim
      = AnimDesc.timing 0 { duration := 200, easing := EasingSpec.easeOutEase }
          (some CB.dismissOverlayOpacity) ∧
    AnimDesc.completeActions
      (onPanOnFinish screenHeight overlay translationY velocityY
        (onPanOnActive screenHeight overlay activeTranslationY s0).1).1.overlayOpacity.anim
      overlay
      = [Action.runOnJS (JSAction.setOverlay OverlayKind.none)] ∧
    AnimDesc.callbackOf
      (onPanOnFinish screenHeight overlay translationY velocityY
        (onPanOnActive screenHeight overlay activeTranslationY s0).1).1.translateY.anim
      = Option.none := by
  have h1 : (onPanOnActive screenHeight overlay activeTranslationY s0).1.translateY.value
      = s0.offsetY.value + activeTranslationY := rfl
  unfold onPanOnFinish
  rw [if_pos ⟨h.1, by rw [h1]; exact h.2⟩]
  refine ⟨rfl, rfl, rfl, ?_⟩
  by_cases hv : velocityY > 1000
  · simp [SharedValue.startAnim, SharedValue.cancelAnim, hv, AnimDesc.callbackOf]
  · simp [SharedValue.startAnim, SharedValue.cancelAnim, hv, AnimDesc.callbackOf]

/-- C3 witness: the theorem at screen height 800, a drag to 500 released with
no velocity. -/
theorem c3_overlay_none_only_after_completion_witness :
    (onPanOnFinish 800 OverlayKind.message 500 0
        (onPanOnActive 800 OverlayKind.message 500 restState).1).2 = [] ∧
    (onPanOnFinish 800 OverlayKind.message 500 0
        (onPanOnActive 800 OverlayKind.message 500 restState).1).1.overlayOpacity.anim
      = AnimDesc.timing 0 { duration := 200, easing := EasingSpec.easeOutEase }
          (some CB.dismissOverlayOpacity) ∧
    AnimDesc.completeActions
      (onPanOnFinish 800 OverlayKind.message 500 0
        (onPanOnActive 800 OverlayKind.message 500 restState).1).1.overlayOpacity.anim
      OverlayKind.message
      = [Action.runOnJS (JSAction.setOverlay OverlayKind.none)] ∧
    AnimDesc.callbackOf
      (onPanOnFinish 800 OverlayKind.message 500 0
        (onPanOnActive 800 OverlayKind.message 500 restState).1).1.translateY.anim
      = Option.none :=
  c3_overlay_none_only_after_completion 800 OverlayKind.message 500 500 0 restState
    (by norm_num [restState, halfScreenHeight])

/-- C4: every hide transition installs a 150 ms ease-out timing on
`showScreen`, starting from its current value, whose completion emits
exactly one `runOnJS(reset)` handoff into the application context; and in
the rapid-toggle scenario (hidden, then `visible` true, then false before
the show spring settles) the whole trace — including the callbacks of the
cancelled spring — contains exactly one reset invocation, produced by the
completion of the hide timing animation. -/
theorem c4_reset_exactly_once_on_hide :
    (∀ (overlay : OverlayKind) (s : MessageOverlayAnimState),
      (fadeScreen overlay false s).1.showScreen.anim
        = AnimDesc.timing 0 { duration := 150, easing := EasingSpec.easeOutEase }
            (some (CB.fadeScreenHide false)) ∧
      (fadeScreen overlay false s).1.showScreen.value = s.showScreen.value ∧
      AnimDesc.completeActions (fadeScreen overlay false s).1.showScreen.anim overlay
        = [Action.runOnJS JSAction.reset]) ∧
    List.count (Action.runOnJS JSAction.reset)
      ((fadeScreen OverlayKind.message true hiddenState).2
        ++ (fadeScreen OverlayKind.message false
              (fadeScreen OverlayKind.message true hiddenState).1).2
        ++ AnimDesc.completeActions
            (fadeScreen OverlayKind.message false
              (fadeScreen OverlayKind.message true hiddenState).1).1.showScreen.anim
            OverlayKind.message) = 1 :=
  ⟨fun _ _ => ⟨rfl, rfl, rfl⟩, rfl⟩

/-- Linear interpolation clamped onto a non-increasing segment is antitone. -/
theorem interpolateClamp_antitone (x0 x1 y0 y1 a b : ℚ) (hx : x0 < x1)
    (hy : y1 ≤ y0) (hab : a ≤ b) :
    interpolateClamp b x0 x1 y0 y1 ≤ interpolateClamp a x0 x1 y0 y1 := by
  have hne : x1 - x0 ≠ 0 := sub_ne_zero_of_ne (ne_of_gt hx)
  have hslope : (y1 - y0) / (x1 - x0) ≤ 0 :=
    div_nonpos_iff.mpr (Or.inr ⟨by linarith, by linarith⟩)
  have hcancel : (x1 - x0) * ((y1 - y0) / (x1 - x0)) = y1 - y0 := by
    field_simp
  unfold interpolateClamp
  split_ifs <;>
    nlinarith [mul_nonneg (show (0:ℚ) ≤ b - a by linarith)
        (show (0:ℚ) ≤ -((y1 - y0) / (x1 - x0)) by linarith),
      hcancel, hslope]

/-- Linear interpolation clamped onto a non-increasing segment stays within
the endpoints of the segment. -/
theorem interpolateClamp_bounds (x0 x1 y0 y1 x : ℚ) (hx : x0 < x1)
    (hy : y1 ≤ y0) :
    y1 ≤ interpolateClamp x x0 x1 y0 y1 ∧ interpolateClamp x x0 x1 y0 y1 ≤ y0 := by
  have hne : x1 - x0 ≠ 0 := sub_ne_zero_of_ne (ne_of_gt hx)
  have hslope : (y1 - y0) / (x1 - x0) ≤ 0 :=
    div_nonpos_iff.mpr (Or.inr ⟨by linarith, by linarith⟩)
  have hcancel : (x1 - x0) * ((y1 - y0) / (x1 - x0)) = y1 - y0 := by
    field_simp
  unfold interpolateClamp
  constructor <;> split_ifs <;>
    nlinarith [hcancel, hslope]

/-- C6: the per-frame derivations in `onPan.onActive` are exactly the clamped
interpolations of `translateY` over `[0, halfScreenHeight]` onto `[1, 0.75]`
(opacity) and `[1, 0.85]` (scale); both are monotonically non-increasing in
the translation and clamped, so opacity always stays in `[0.75, 1]` and
scale in `[0.85, 1]`. -/
theorem c6_opacity_scale_monotone_clamped (screenHeight : ℚ)
    (overlay : OverlayKind) (s : MessageOverlayAnimState) (t1 t2 t : ℚ)
    (hH : 0 < screenHeight) (h12 : t1 ≤ t2) :
    (onPanOnActive screenHeight overlay t s).1.overlayOpacity.value
      = interpolateClamp (s.offsetY.value + t) 0 (halfScreenHeight screenHeight)
          1 (3/4) ∧
    (onPanOnActive screenHeight overlay t s).1.scale.value
      = interpolateClamp (s.offsetY.value + t) 0 (halfScreenHeight screenHeight)
          1 (17/20) ∧
    (onPanOnActive screenHeight overlay t2 s).1.overlayOpacity.value
      ≤ (onPanOnActive screenHeight overlay t1 s).1.overlayOpacity.value ∧
    (onPanOnActive screenHeight overlay t2 s).1.scale.value
      ≤ (onPanOnActive screenHeight overlay t1 s).1.scale.value ∧
    3/4 ≤ (onPanOnActive screenHeight overlay t s).1.overlayOpacity.value ∧
    (onPanOnActive screenHeight overlay t s).1.overlayOpacity.value ≤ 1 ∧
    17/20 ≤ (onPanOnActive screenHeight overlay t s).1.scale.value ∧
    (onPanOnActive screenHeight overlay t s).1.scale.value ≤ 1 := by
  have hhalf : (0 : ℚ) < halfScreenHeight screenHeight := by
    unfold halfScreenHeight; linarith
  have hopacity : ∀ u : ℚ,
      (onPanOnActive screenHeight overlay u s).1.overlayOpacity.value
        = interpolateClamp (s.offsetY.value + u) 0 (halfScreenHeight screenHeight)
            1 (3/4) := fun _ => rfl
  have hscale : ∀ u : ℚ,
      (onPanOnActive screenHeight overlay u s).1.scale.value
        = interpolateClamp (s.offsetY.value + u) 0 (halfScreenHeight screenHeight)
            1 (17/20) := fun _ => rfl
  refine ⟨hopacity t, hscale t, ?_, ?_, ?_, ?_, ?_, ?_⟩
  · rw [hopacity t1, hopacity t2]
    exact interpolateClamp_antitone 0 (halfScreenHeight screenHeight) 1 (3/4)
      _ _ hhalf (by norm_num) (by linarith)
  · rw [hscale t1, hscale t2]
    exact interpolateClamp_antitone 0 (halfScreenHeight screenHeight) 1 (17/20)
      _ _ hhalf (by norm_num) (by linarith)
  · rw [hopacity t]
    exact (interpolateClamp_bounds 0 (halfScreenHeight screenHeight) 1 (3/4)
      _ hhalf (by norm_num)).1
  · rw [hopacity t]
    exact (interpolateClamp_bounds 0 (halfScreenHeight screenHeight) 1 (3/4)
      _ hhalf (by norm_num)).2
  · rw [hscale t]
    exact (interpolateClamp_bounds 0 (halfScreenHeight screenHeight) 1 (17/20)
      _ hhalf (by norm_num)).1
  · rw [hscale t]
    exact (interpolateClamp_bounds 0 (halfScreenHeight screenHeight) 1 (17/20)
      _ hhalf (by norm_num)).2

/-- C6 witness: the monotonicity/clamping theorem at screen height 800,
translations 100 ≤ 200, and sample translation 999 from the rest state. -/
theorem c6_opacity_scale_monotone_clamped_witness :
    (onPanOnActive 800 OverlayKind.message 999 restState).1.overlayOpacity.value
      = interpolateClamp (restState.offsetY.value + 999) 0 (halfScreenHeight 800)
          1 (3/4) ∧
    (onPanOnActive 800 OverlayKind.message 999 restState).1.scale.value
      = interpolateClamp (restState.offsetY.value + 999) 0 (halfScreenHeight 800)
          1 (17/20) ∧
    (onPanOnActive 800 OverlayKind.message 200 restState).1.overlayOpacity.value
      ≤ (onPanOnActive 800 OverlayKind.message 100 restState).1.overlayOpacity.value ∧
    (onPanOnActive 800 OverlayKind.message 200 restState).1.scale.value
      ≤ (onPanOnActive 800 OverlayKind.message 100 restState).1.scale.value ∧
    3/4 ≤ (onPanOnActive 800 OverlayKind.message 999 restState).1.overlayOpacity.value ∧
    (onPanOnActive 800 OverlayKind.message 999 restState).1.overlayOpacity.value ≤ 1 ∧
    17/20 ≤ (onPanOnActive 800 OverlayKind.message 999 restState).1.scale.value ∧
    (onPanOnActive 800 OverlayKind.message 999 restState).1.scale.value ≤ 1 :=
  c6_opacity_scale_monotone_clamped 800 OverlayKind.message restState 100 200 999
    (by norm_num) (by norm_num)

/-- C8 counterexample: the dismissal completion callback does not check the
current overlay kind — run when the overlay has since changed to `gallery`
(or has already been reset to `none`), it still emits setOverlay-none
instead of being a no-op; likewise the hide completion callback still emits
`reset`. -/
theorem c8_counterexample :
    CB.run CB.dismissOverlayOpacity true OverlayKind.gallery
      = [Action.runOnJS (JSAction.setOverlay OverlayKind.none)] ∧
    CB.run CB.dismissOverlayOpacity true OverlayKind.none
      = [Action.runOnJS (JSAction.setOverlay OverlayKind.none)] ∧
    CB.run (CB.fadeScreenHide false) true OverlayKind.gallery
      = [Action.runOnJS JSAction.reset] :=
  ⟨rfl, rfl, rfl⟩

/-- C8 (amended): the animation completion callbacks that mutate
overlay-kind state do not consult the current overlay kind at all — for
every overlay kind (and finished flag) the dismissal callback emits
setOverlay-none and the hide callback (whose only guard is the
captured `show` flag, which is `false` for every hide) emits `reset()`;
neither is a no-op when the overlay state has changed since the animation
started. -/
theorem c8_callbacks_ignore_overlay_kind (finished : Bool)
    (k k2 : OverlayKind) :
    CB.run CB.dismissOverlayOpacity finished k
      = CB.run CB.dismissOverlayOpacity finished k2 ∧
    CB.run CB.dismissOverlayOpacity finished k
      = [Action.runOnJS (JSAction.setOverlay OverlayKind.none)] ∧
    CB.run (CB.fadeScreenHide false) finished k
      = CB.run (CB.fadeScreenHide false) finished k2 ∧
    CB.run (CB.fadeScreenHide false) finished k
      = [Action.runOnJS JSAction.reset] :=
  ⟨rfl, rfl, rfl, rfl⟩

/-! Data model for the memo comparator `areEqual`, the background-color
resolution in `MessageOverlayWithContext`, and the channel files screen. -/

/-- Message alignment. -/
inductive Alignment
  | left
  | right
deriving DecidableEq

/-- A reaction from `message.latest_reactions`: its kind plus other data
(identity) that the comparator must ignore. -/
structure Reaction where
  type : String
  user_id : String
deriving DecidableEq

/-- The message fields `MessageOverlay` reads.  `quoted_message` models the
truthiness of `message.quoted_message`. -/
structure OverlayMessage where
  id : String
  text : String
  latest_reactions : Option (List Reaction)
  quoted_message : Bool
  reply_count : Nat
deriving DecidableEq

/-- A non-file ("other") attachment. -/
structure MsgAttachment where
  type : String
deriving DecidableEq

/-- The props of `MessageOverlayWithContext` that `areEqual` and the
background-color resolution consult (plus the message text, which they must
ignore). -/
structure MessageOverlayProps where
  alignment : Option Alignment
  message : Option OverlayMessage
  messageReactionTitle : Option String
  visible : Option Bool
  onlyEmojis : Bool
  otherAttachments : Option (List MsgAttachment)
deriving DecidableEq

/-- The `latestReactionsEqual` computation of `areEqual`: when both sides
are arrays, lengths must agree and reactions are compared pointwise by
`type` only; otherwise the two values are compared by identity
(`undefined === undefined`). -/
def latestReactionsEqual (prevReactions nextReactions : Option (List Reaction)) :
    Bool :=
  match prevReactions, nextReactions with
  | some prevR, some nextR =>
      prevR.length == nextR.length &&
      (prevR.zip nextR).all fun rr => rr.1.type == rr.2.type
  | Option.none, Option.none => true
  | _, _ => false

/-- The memo comparator `areEqual`, with the early returns of the source:
`visible`, then alignment, then `messageReactionTitle`, then the latest
reactions compared by kind. -/
def areEqual (prevProps nextProps : MessageOverlayProps) : Bool :=
  if !(prevProps.visible == nextProps.visible) then false
  else if !(prevProps.alignment == nextProps.alignment) then false
  else if !(prevProps.messageReactionTitle == nextProps.messageReactionTitle) then
    false
  else if !(latestReactionsEqual
      (prevProps.message.bind OverlayMessage.latest_reactions)
      (nextProps.message.bind OverlayMessage.latest_reactions)) then false
  else true

/-- The ordered list of latest-reaction kinds of a prop set (absent when the
message or its reaction list is absent). -/
def reactionKinds (props : MessageOverlayProps) : Option (List String) :=
  (props.message.bind OverlayMessage.latest_reactions).map (List.map Reaction.type)

theorem reactionTypesEqual_iff (ps ns : List Reaction) :
    ((ps.length == ns.length) &&
      (ps.zip ns).all fun rr => rr.1.type == rr.2.type) = true ↔
      ps.map Reaction.type = ns.map Reaction.type := by
  induction ps generalizing ns with
  | nil => cases ns <;> simp
  | cons a as ih =>
    cases ns with
    | nil => simp
    | cons b bs =>
      have hih := ih bs
      simp only [List.length_cons, List.zip_cons_cons, List.all_cons,
        Bool.and_eq_true, beq_iff_eq, List.map_cons, List.cons.injEq] at hih ⊢
      constructor
      · rintro ⟨hlen, hab, hall⟩
        exact ⟨hab, hih.mp ⟨by omega, hall⟩⟩
      · rintro ⟨hab, hmaps⟩
        obtain ⟨hlen, hall⟩ := hih.mpr hmaps
        exact ⟨by omega, hab, hall⟩

theorem latestReactionsEqual_iff (p n : Option (List Reaction)) :
    latestReactionsEqual p n = true ↔
      p.map (List.map Reaction.type) = n.map (List.map Reaction.type) := by
  cases p with
  | none => cases n <;> simp [latestReactionsEqual]
  | some ps =>
    cases n with
    | none => simp [latestReactionsEqual]
    | some ns => simp [latestReactionsEqual, reactionTypesEqual_iff ps ns]

/-- C7: the comparator signals "skip render" exactly when all four
comparisons pass — `visible`, alignment, the reaction-summary title, and
the ordered list of latest-reaction kinds are unchanged (reactions compared
by kind only).  Any other prop difference (message text, attachments, …)
alone leaves the result at "skip render", since the characterisation does
not mention those props. -/
theorem c7_areEqual_characterisation (prevProps nextProps : MessageOverlayProps) :
    areEqual prevProps nextProps = true ↔
      (prevProps.visible = nextProps.visible ∧
       prevProps.alignment = nextProps.alignment ∧
       prevProps.messageReactionTitle = nextProps.messageReactionTitle ∧
       reactionKinds prevProps = reactionKinds nextProps) := by
  have hre : latestReactionsEqual
      (prevProps.message.bind OverlayMessage.latest_reactions)
      (nextProps.message.bind OverlayMessage.latest_reactions) = true ↔
      reactionKinds prevProps = reactionKinds nextProps :=
    latestReactionsEqual_iff _ _
  unfold areEqual
  split_ifs with h1 h2 h3 h4 <;>
    simp_all [Bool.not_eq_true', beq_iff_eq, beq_eq_false_iff_ne]

/-- The theme colors that the bubble background resolution can pick. -/
inductive ColorName
  | transparent
  | blue_alice
  | white_smoke
  | grey_gainsboro
deriving DecidableEq

/-- The `backgroundColor` ternary chain of `MessageOverlayWithContext`:
`onlyEmojis && !message.quoted_message ? transparent :
 otherAttachments?.length ?
   (first other attachment of kind giphy ? transparent : blue_alice) :
 alignment left ? white_smoke : grey_gainsboro`. -/
def backgroundColor (onlyEmojis quoted_message : Bool)
    (otherAttachments : Option (List MsgAttachment)) (alignment : Alignment) :
    ColorName :=
  if onlyEmojis && !quoted_message then ColorName.transparent
  else match otherAttachments with
    | some (first :: _) =>
        if first.type == "giphy" then ColorName.transparent
        else ColorName.blue_alice
    | _ =>
        if alignment == Alignment.left then ColorName.white_smoke
        else ColorName.grey_gainsboro

/-- The description of the fill given by the claim, stated from the words
of the spec as a
pure function of the message content class: emoji-only messages with no
quoted content get no fill; messages with non-file attachments get the
tinted fill unless the first one is the rich-embed ("giphy") kind, which is
transparent; all remaining messages get the alignment-dependent neutral
fill. -/
def specBackgroundColor (emojiOnlyWithoutQuote : Bool)
    (otherAtts : List MsgAttachment) (alignment : Alignment) : ColorName :=
  if emojiOnlyWithoutQuote then ColorName.transparent
  else
    match otherAtts with
    | first :: _ =>
        if first.type = "giphy" then ColorName.transparent
        else ColorName.blue_alice
    | [] =>
        match alignment with
        | Alignment.left => ColorName.white_smoke
        | Alignment.right => ColorName.grey_gainsboro

/-- C9: the bubble background color implemented by the overlay equals the
content-class function of the spec, for every combination of emoji-only flag,
quoted-message presence, attachment list (absent or present) and
alignment. -/
theorem c9_background_color (onlyEmojis quoted_message : Bool)
    (otherAttachments : Option (List MsgAttachment)) (alignment : Alignment) :
    backgroundColor onlyEmojis quoted_message otherAttachments alignment
      = specBackgroundColor (onlyEmojis && !quoted_message)
          (otherAttachments.getD []) alignment := by
  cases onlyEmojis <;> cases quoted_message <;>
    rcases otherAttachments with _ | (_ | ⟨first, rest⟩) <;>
      cases alignment <;>
        simp [backgroundColor, specBackgroundColor, beq_iff_eq]

/-! The channel files screen (`ChannelFilesScreen`). -/

/-- A file attachment as rendered by the channel files screen. -/
structure FileAttachment where
  type : String
  title : String
  asset_url : String
  mime_type : String
  file_size : Nat
deriving DecidableEq

/-- A fetched message: `created_month` stands for
the month format MMM YYYY applied to message.created_at. -/
structure FileMessage where
  created_month : String
  attachments : Option (List FileAttachment)
deriving DecidableEq

/-- One section of the monthly grouping: `{ title, data }`. -/
structure FileSection where
  title : String
  data : List FileAttachment
deriving DecidableEq

/-- Processing one message inside the effect: ensure the month key exists
(JS records preserve insertion order), then append each attachment of type
`file` to the data of that month. -/
def addMessageAttachments (secs : List FileSection) (message : FileMessage) :
    List FileSection :=
  let withMonth :=
    if secs.any fun sec => sec.title == message.created_month then secs
    else secs ++ [{ title := message.created_month, data := [] }]
  (message.attachments.getD []).foldl
    (fun acc a =>
      if a.type != "file" then acc
      else acc.map fun sec =>
        if sec.title == message.created_month then
          { sec with data := sec.data ++ [a] }
        else sec)
    withMonth

/-- The monthly grouping of file attachments computed by the
`useEffect` over the fetched messages (`Object.values(sections)`). -/
def channelFilesSections (messages : List FileMessage) : List FileSection :=
  messages.foldl addMessageAttachments []

/-- The props of the rendered `SectionList`. -/
structure SectionListModel where
  sections : List FileSection
deriving DecidableEq

/-- The render of the screen: the `SectionList` appears only when
`sections.length > 0 || !loading`, and its `sections` prop is the literal
empty array `sections={[]}`. -/
def channelFilesRenderedList (loading : Bool) (sections : List FileSection) :
    Option SectionListModel :=
  if sections.length > 0 || !loading then some { sections := [] }
  else Option.none

/-- A `SectionList` displays its `ListEmptyComponent` iff it has no
sections (hence no items). -/
def showsEmptyState (model : SectionListModel) : Bool :=
  model.sections.isEmpty

/-- C10: whenever the channel files screen renders its `SectionList`, the
list receives the literal empty `sections` prop — the monthly grouping
computed by the effect over the fetched messages is never displayed, and
the list always shows its empty-state component. -/
theorem c10_sections_never_displayed (loading : Bool)
    (messages : List FileMessage) (model : SectionListModel)
    (h : channelFilesRenderedList loading (channelFilesSections messages)
          = some model) :
    model.sections = [] ∧ showsEmptyState model = true := by
  unfold channelFilesRenderedList at h
  split_ifs at h with hc
  · injection h with h2
    subst h2
    exact ⟨rfl, rfl⟩

/-- An example file attachment. -/
def exampleFileAttachment : FileAttachment :=
  { type := "file", title := "notes.pdf",
    asset_url := "https://example.com/notes.pdf",
    mime_type := "application/pdf", file_size := 2048 }

/-- An example fetched message carrying one file attachment. -/
def exampleFileMessage : FileMessage :=
  { created_month := "Jan 2024",
    attachments := some [exampleFileAttachment] }

/-- C10 witness: with a finished fetch of one file-carrying message (whose
computed grouping is non-empty), the rendered list still has no sections
and shows the empty state. -/
theorem c10_sections_never_displayed_witness :
    ({ sections := [] } : SectionListModel).sections = [] ∧
    showsEmptyState { sections := [] } = true :=
  c10_sections_never_displayed false [exampleFileMessage] { sections := [] }
    (by decide)

end StreamChat
